import Mathlib

/-!
Shallow embedding of `src/music_assistant_client/client.py`
(`MusicAssistantClient`): the request/response correlation engine, the
schema-version gate, the event dispatch router and the provider cache.

Modelling choices:
* `uuid.uuid4().hex` is modelled by a fresh-id supply (`uuidCounter`):
  each generated correlation id is the current counter value and the
  counter is incremented, which makes generated ids injective.
* An `asyncio.Future` is modelled by an explicit single-assignment
  state (`FutureState`): pending, resolved, rejected or cancelled.
  `future.cancel()` cancels only a pending future (a no-op on a future
  that is already done), matching asyncio semantics.
* The transport (`WebsocketsConnection`) is external; its observable
  effects are a `connected` flag and the log `sentMessages` of
  envelopes passed to `send_message`.
* Subscriber callbacks are identified by a number; delivering an event
  to a callback is modelled by appending to `deliveredLog`.
* `ERROR_MAP` lives in the external `music_assistant_models` package;
  it is kept abstract as a parameter `errMap : Nat → JValue → TypedError`
  mapping an error code and the detail payload to a typed error.
-/

namespace MAClient

/-- Correlation ids (`CommandMessage.message_id`, produced by `uuid.uuid4().hex`). -/
abbrev MsgId := Nat

/-- Opaque JSON-like payload values (command args, results, error details). -/
inductive JValue where
  | null : JValue
  | jbool : Bool → JValue
  | jnum : Int → JValue
  | jstr : String → JValue
deriving DecidableEq, Repr

/-- Event types (`music_assistant_models.enums.EventType`); only
`PROVIDERS_UPDATED` is treated specially by the client. -/
inductive EventType where
  | providersUpdated
  | playerUpdated
  | queueUpdated
  | other : String → EventType
deriving DecidableEq, Repr

/-- A typed server error: the result of applying an `ERROR_MAP` entry to the
detail payload (`ERROR_MAP[msg.error_code](msg.details)`). -/
structure TypedError where
  code : Nat
  details : JValue
deriving DecidableEq, Repr

/-- The exceptions the client can raise or install on a future:
`InvalidState` ("Not connected"), `InvalidServerVersion`,
`ConnectionClosed`, a mapped server error, or `asyncio.CancelledError`
as observed by a caller whose future was cancelled. -/
inductive ClientError where
  | invalidState : String → ClientError
  | invalidServerVersion : String → ClientError
  | connectionClosed : ClientError
  | serverError : TypedError → ClientError
  | cancelledError : ClientError
deriving DecidableEq, Repr

/-- The state of one `asyncio.Future` in `_result_futures`. -/
inductive FutureState where
  | pending : FutureState
  | resolved : JValue → FutureState
  | rejected : ClientError → FutureState
  | cancelled : FutureState
deriving DecidableEq, Repr

/-- `music_assistant_models.api.CommandMessage`. -/
structure CommandMessage where
  message_id : MsgId
  command : String
  args : List (String × JValue)
deriving DecidableEq, Repr

/-- `music_assistant_models.api.ServerInfoMessage` (the fields the client reads). -/
structure ServerInfoMessage where
  server_id : String
  server_version : String
  schema_version : Nat
  min_supported_schema_version : Nat
  base_url : String
deriving DecidableEq, Repr

/-- `music_assistant_models.provider.ProviderInstance` (the fields `get_provider`
and the provider cache read). -/
structure ProviderInstance where
  instance_id : String
  domain : String
  available : Bool
  is_streaming_provider : Bool
deriving DecidableEq, Repr

/-- One entry of `MusicAssistantClient._subscribers`:
`(cb_func, event_filter, id_filter)` after `subscribe` normalised the
filters to tuples. The callback is identified by a number. -/
structure Subscription where
  cb : Nat
  event_filter : Option (List EventType)
  id_filter : Option (List String)
deriving DecidableEq, Repr

/-- Payload of a `MassEvent`: a provider snapshot for `PROVIDERS_UPDATED`,
otherwise an opaque value. -/
inductive EventData where
  | providers : List ProviderInstance → EventData
  | value : JValue → EventData
deriving DecidableEq, Repr

/-- `music_assistant_models.event.MassEvent` (the fields the client reads). -/
structure MassEvent where
  event : EventType
  object_id : Option String
  data : EventData
deriving DecidableEq, Repr

/-- Result messages of the api: `SuccessResultMessage` or
`ErrorResultMessage`, each carrying the correlation id `message_id`. -/
inductive ResultMessage where
  | success : MsgId → JValue → ResultMessage
  | error : MsgId → Nat → JValue → ResultMessage
deriving DecidableEq, Repr

/-- The correlation id carried by a result message. -/
def ResultMessage.message_id : ResultMessage → MsgId
  | ResultMessage.success mid _ => mid
  | ResultMessage.error mid _ _ => mid

/-- The observable state of a `MusicAssistantClient` together with the
observable effects on its external collaborators. -/
structure ClientState where
  /-- `self.connection.connected` -/
  connected : Bool
  /-- whether `self._loop` is set (`_loop is not None`) -/
  loopSet : Bool
  /-- `self._stop_called` -/
  stop_called : Bool
  /-- `self._server_info` -/
  server_info : Option ServerInfoMessage
  /-- `self._result_futures`, in insertion order -/
  result_futures : List (MsgId × FutureState)
  /-- `self._subscribers`, in registration order -/
  subscribers : List Subscription
  /-- `self._providers`, in python-dict insertion order -/
  providers : List (String × ProviderInstance)
  /-- fresh-id supply modelling `uuid.uuid4().hex` -/
  uuidCounter : Nat
  /-- log of envelopes handed to `connection.send_message` -/
  sentMessages : List CommandMessage
  /-- log of (callback, event) deliveries scheduled by `_handle_event` -/
  deliveredLog : List (Nat × MassEvent)
deriving DecidableEq, Repr

/-- Lookup in the `_result_futures` dict. -/
def lookupFuture (mid : MsgId) : List (MsgId × FutureState) → Option FutureState
  | [] => none
  | (k, v) :: rest => if k = mid then some v else lookupFuture mid rest

/-- `dict.__setitem__` on `_result_futures` for a key already present
(value replaced in place). -/
def setFuture (mid : MsgId) (fs : FutureState) :
    List (MsgId × FutureState) → List (MsgId × FutureState)
  | [] => []
  | (k, v) :: rest =>
      if k = mid then (k, fs) :: rest else (k, v) :: setFuture mid fs rest

/-- `dict.pop` on `_result_futures` (removes the entry for the key). -/
def popFuture (mid : MsgId) : List (MsgId × FutureState) → List (MsgId × FutureState)
  | [] => []
  | (k, v) :: rest => if k = mid then rest else (k, v) :: popFuture mid rest

/-- Lookup in the `_providers` dict (`dict.get`). -/
def lookupProv (k : String) : List (String × ProviderInstance) → Option ProviderInstance
  | [] => none
  | (k0, v) :: rest => if k0 = k then some v else lookupProv k rest

/-- Python-dict insertion: replace in place when the key exists, else append. -/
def dictInsert (k : String) (v : ProviderInstance) :
    List (String × ProviderInstance) → List (String × ProviderInstance)
  | [] => [(k, v)]
  | (k0, v0) :: rest =>
      if k0 = k then (k, v) :: rest else (k0, v0) :: dictInsert k v rest

/-- The dict comprehension building `_providers` from a list of provider
payloads, keyed by `instance_id`. -/
def buildProviderDict (l : List ProviderInstance) : List (String × ProviderInstance) :=
  l.foldl (fun d x => dictInsert x.instance_id x d) []

/-- The message of the `InvalidState` exception raised by both send paths. -/
def notConnectedMsg : String := "Not connected"

/-- The `InvalidServerVersion` message built by `connect` on an incompatible
server schema. -/
def connectVersionMsg (schemaVersion minVersion : Nat) : String :=
  "Schema version is incompatible: " ++ toString schemaVersion ++
    ", the server requires at least " ++ toString minVersion ++
    "  - update the Music Assistant client to a more recent version or downgrade the server."

/-- The `InvalidServerVersion` message built by both send paths. -/
def cmdVersionMsg (requireSchema : Nat) : String :=
  "Command not available due to incompatible server version. Update the Music " ++
    "Assistant Server to a version that supports at least api schema " ++
    toString requireSchema ++ "."

/-- `MusicAssistantClient.connect`, parametric in the client's
`API_SCHEMA_VERSION` (the `constants` module is outside the embedded
sources). It captures `self._loop`, is a no-op when already connected, and
otherwise establishes the connection, checks
`info.min_supported_schema_version > API_SCHEMA_VERSION`, disconnecting the
transport before raising `InvalidServerVersion` on failure, and capturing
`server_info` on success. The state paired with an error is the state at the
moment the exception is raised. -/
def connect (clientSchema : Nat) (info : ServerInfoMessage) (s : ClientState) :
    ClientState × Except ClientError Unit :=
  let s0 := { s with loopSet := true }
  if s0.connected then (s0, Except.ok ())
  else
    let s1 := { s0 with connected := true }
    if clientSchema < info.min_supported_schema_version then
      ({ s1 with connected := false },
        Except.error (ClientError.invalidServerVersion
          (connectVersionMsg info.schema_version info.min_supported_schema_version)))
    else
      ({ s1 with server_info := some info }, Except.ok ())

/-- The per-command schema check of `send_command`:
`require_schema is not None and self.server_info is not None and
require_schema > self.server_info.schema_version`. -/
def schemaIncompatible (require_schema : Option Nat)
    (si : Option ServerInfoMessage) : Bool :=
  match require_schema, si with
  | some r, some info => decide (info.schema_version < r)
  | _, _ => false

/-- The synchronous part of `MusicAssistantClient.send_command`, up to and
including handing the envelope to `connection.send_message`: the
connectivity precondition (`connection.connected` and `_loop`), the schema
check, correlation-id generation, registration of the pending future and
transmission. Returns the generated correlation id; the caller then awaits
the future (`send_command_finish`). -/
def send_command_begin (command : String) (require_schema : Option Nat)
    (args : List (String × JValue)) (s : ClientState) :
    ClientState × Except ClientError MsgId :=
  if !(s.connected && s.loopSet) then
    (s, Except.error (ClientError.invalidState notConnectedMsg))
  else if schemaIncompatible require_schema s.server_info then
    (s, Except.error (ClientError.invalidServerVersion
      (cmdVersionMsg (require_schema.getD 0))))
  else
    let mid := s.uuidCounter
    let msg : CommandMessage := ⟨mid, command, args⟩
    ({ s with
        uuidCounter := mid + 1,
        result_futures := s.result_futures ++ [(mid, FutureState.pending)],
        sentMessages := s.sentMessages ++ [msg] },
      Except.ok mid)

/-- The awaiting tail of `send_command`: `await future` followed by the
`finally: self._result_futures.pop(...)`. Returns `none` while the future
is still pending (the caller keeps waiting); once the future is settled it
removes the entry and surfaces the result, the installed exception, or the
cancellation. -/
def send_command_finish (mid : MsgId) (s : ClientState) :
    Option (ClientState × Except ClientError JValue) :=
  match lookupFuture mid s.result_futures with
  | some (FutureState.resolved v) =>
      some ({ s with result_futures := popFuture mid s.result_futures }, Except.ok v)
  | some (FutureState.rejected e) =>
      some ({ s with result_futures := popFuture mid s.result_futures }, Except.error e)
  | some FutureState.cancelled =>
      some ({ s with result_futures := popFuture mid s.result_futures },
        Except.error ClientError.cancelledError)
  | _ => none

/-- `MusicAssistantClient.send_command_no_wait`: note that its connectivity
precondition tests `self.server_info` (presence of a captured ServerInfo),
not `connection.connected`; it transmits without touching
`_result_futures`. -/
def send_command_no_wait (command : String) (require_schema : Option Nat)
    (args : List (String × JValue)) (s : ClientState) :
    ClientState × Except ClientError Unit :=
  match s.server_info with
  | none => (s, Except.error (ClientError.invalidState notConnectedMsg))
  | some info =>
      if require_schema.any (fun r => decide (info.schema_version < r)) then
        (s, Except.error (ClientError.invalidServerVersion
          (cmdVersionMsg (require_schema.getD 0))))
      else
        let msg : CommandMessage := ⟨s.uuidCounter, command, args⟩
        ({ s with
            uuidCounter := s.uuidCounter + 1,
            sentMessages := s.sentMessages ++ [msg] },
          Except.ok ())

/-- The result branch of `_handle_incoming_message`: look up the future for
`msg.message_id`; a miss is silently ignored; a hit resolves the future
with `set_result` for a `SuccessResultMessage`, or rejects it with
`set_exception(ERROR_MAP[msg.error_code](msg.details))` for an
`ErrorResultMessage`. -/
def handle_result (errMap : Nat → JValue → TypedError) (msg : ResultMessage)
    (s : ClientState) : ClientState :=
  match lookupFuture msg.message_id s.result_futures with
  | none => s
  | some _ =>
      match msg with
      | ResultMessage.success mid v =>
          { s with result_futures := setFuture mid (FutureState.resolved v) s.result_futures }
      | ResultMessage.error mid code details =>
          { s with result_futures :=
              setFuture mid (FutureState.rejected
                (ClientError.serverError (errMap code details))) s.result_futures }

/-- `future.cancel()`: cancels a pending future, a no-op on a settled one. -/
def cancelFuture : FutureState → FutureState
  | FutureState.pending => FutureState.cancelled
  | fs => fs

/-- `MusicAssistantClient.disconnect`: sets `_stop_called`, calls
`future.cancel()` on every future in `_result_futures` (without removing
the entries), and disconnects the transport. -/
def disconnect (s : ClientState) : ClientState :=
  { s with
      stop_called := true,
      result_futures := s.result_futures.map (fun p => (p.1, cancelFuture p.2)),
      connected := false }

/-- One awaiting `send_command` caller resuming after its future settled:
`send_command_finish` when the future is done, no state change while it is
still pending. -/
def finishStep (st : ClientState) (mid : MsgId) : ClientState :=
  match send_command_finish mid st with
  | some (st2, _) => st2
  | none => st

/-- Every awaiting `send_command` caller resuming, in table order: each
runs its `finally: self._result_futures.pop(...)` once its future is
settled. -/
def resumeWaiters (s : ClientState) : ClientState :=
  (s.result_futures.map Prod.fst).foldl finishStep s

/-- Filter-argument of `subscribe` for events: a single `EventType`, a
tuple, or `None`. -/
inductive EventFilterArg where
  | noFilter : EventFilterArg
  | single : EventType → EventFilterArg
  | many : List EventType → EventFilterArg
deriving DecidableEq, Repr

/-- Filter-argument of `subscribe` for object ids: a single string, a
tuple, or `None`. -/
inductive IdFilterArg where
  | noFilter : IdFilterArg
  | single : String → IdFilterArg
  | many : List String → IdFilterArg
deriving DecidableEq, Repr

/-- `subscribe`'s normalisation of the event filter: a bare `EventType`
becomes a one-element tuple. -/
def normEventFilter : EventFilterArg → Option (List EventType)
  | EventFilterArg.noFilter => none
  | EventFilterArg.single e => some [e]
  | EventFilterArg.many l => some l

/-- `subscribe`'s normalisation of the id filter: a bare string becomes a
one-element tuple. -/
def normIdFilter : IdFilterArg → Option (List String)
  | IdFilterArg.noFilter => none
  | IdFilterArg.single x => some [x]
  | IdFilterArg.many l => some l

/-- `MusicAssistantClient.subscribe`: normalises the filters and appends
the listener to `_subscribers`. -/
def subscribe (cb : Nat) (ef : EventFilterArg) (idf : IdFilterArg)
    (s : ClientState) : ClientState :=
  { s with subscribers := s.subscribers ++ [⟨cb, normEventFilter ef, normIdFilter idf⟩] }

/-- The filter test of `_handle_event` for one subscriber:
`(event_filter is None or event.event in event_filter) and
(id_filter is None or event.object_id in id_filter)` (a `None` object id is
never a member of a tuple of strings). -/
def matchesFilters (sub : Subscription) (e : MassEvent) : Bool :=
  (match sub.event_filter with
    | none => true
    | some fl => decide (e.event ∈ fl))
  &&
  (match sub.id_filter with
    | none => true
    | some fl =>
        match e.object_id with
        | some oid => decide (oid ∈ fl)
        | none => false)

/-- The deliveries `_handle_event` schedules: every subscriber whose
filters match, in registration order. -/
def dispatchList (subs : List Subscription) (e : MassEvent) : List (Nat × MassEvent) :=
  (subs.filter (fun sub => matchesFilters sub e)).map (fun sub => (sub.cb, e))

/-- The provider payload of an event (`event.data` for `PROVIDERS_UPDATED`). -/
def eventProviders : EventData → List ProviderInstance
  | EventData.providers l => l
  | EventData.value _ => []

/-- `MusicAssistantClient._handle_event`: a no-op once `_stop_called` is
set; replaces `_providers` wholesale for a `PROVIDERS_UPDATED` event; then
schedules delivery to every matching subscriber. -/
def handle_event (e : MassEvent) (s : ClientState) : ClientState :=
  if s.stop_called then s
  else
    let s1 :=
      if e.event = EventType.providersUpdated then
        { s with providers := buildProviderDict (eventProviders e.data) }
      else s
    { s1 with deliveredLog := s1.deliveredLog ++ dispatchList s1.subscribers e }

/-- The domain-fallback loop of `get_provider`: scan `_providers.values()`
in order, skip entries of a different domain, return the first whose
availability condition holds. -/
def find_domain (d : String) (return_unavailable : Bool) :
    List (String × ProviderInstance) → Option ProviderInstance
  | [] => none
  | (_, prov) :: rest =>
      if prov.domain ≠ d then find_domain d return_unavailable rest
      else if return_unavailable || prov.available then some prov
      else find_domain d return_unavailable rest

/-- `MusicAssistantClient.get_provider`: exact lookup by instance id first;
an available (or `return_unavailable`) hit is returned; an unavailable hit
that is not a streaming provider short-circuits to `None`; otherwise fall
back to the domain scan (using the hit's domain, or the argument itself
when the exact lookup missed). -/
def get_provider (provider_instance_or_domain : String)
    (return_unavailable : Bool) (s : ClientState) : Option ProviderInstance :=
  match lookupProv provider_instance_or_domain s.providers with
  | some prov =>
      if return_unavailable || prov.available then some prov
      else if !prov.is_streaming_provider then none
      else find_domain prov.domain return_unavailable s.providers
  | none => find_domain provider_instance_or_domain return_unavailable s.providers

/-- No entry of the table carries the key `mid`. -/
def keyAbsent (mid : MsgId) (l : List (MsgId × FutureState)) : Prop :=
  ∀ p ∈ l, p.1 ≠ mid

/-! ### Concrete fixtures used by witnesses and counterexamples -/

/-- A sample ServerInfo: schema 26, minimum supported 24. -/
def exServerInfo : ServerInfoMessage :=
  ⟨"srv1", "2.6.0", 26, 24, "http://ma.local:8095"⟩

/-- A sample ServerInfo whose minimum supported schema version is 30
(the spec's incompatibility scenario). -/
def exServerInfo30 : ServerInfoMessage :=
  ⟨"srv2", "3.0.0", 30, 30, "http://ma.local:8095"⟩

/-- A freshly initialised client: nothing connected, nothing captured. -/
def exInit : ClientState :=
  { connected := false, loopSet := false, stop_called := false,
    server_info := none, result_futures := [], subscribers := [],
    providers := [], uuidCounter := 0, sentMessages := [], deliveredLog := [] }

/-- A connected client with a captured ServerInfo. -/
def exConnected : ClientState :=
  { exInit with connected := true, loopSet := true, server_info := some exServerInfo }

/-- A connected client with one pending command (correlation id 7). -/
def exPending : ClientState :=
  { exConnected with result_futures := [(7, FutureState.pending)], uuidCounter := 8 }

/-- A dropped transport while a ServerInfo is still captured (`disconnect`
never clears `_server_info`). -/
def exStaleInfo : ClientState :=
  { exInit with server_info := some exServerInfo }

/-- A concrete error-taxonomy map for witnesses: code and detail payload
packed into the typed error. -/
def exErrMap : Nat → JValue → TypedError := fun code d => ⟨code, d⟩

/-- The state after two back-to-back `send_command` registrations from
`exConnected` followed by the two results arriving, success for id 0 first,
error for id 1 second. -/
def exSfA : ClientState :=
  handle_result exErrMap (ResultMessage.error 1 5 JValue.null)
    (handle_result exErrMap (ResultMessage.success 0 (JValue.jstr "queued"))
      (send_command_begin "players/cmd/play" none [("player_id", JValue.jstr "p1")]
        (send_command_begin "players/cmd/play" none [("player_id", JValue.jstr "p1")]
          exConnected).1).1)

/-- A subscription with no filters. -/
def exSubAll : Subscription := ⟨1, none, none⟩

/-- A subscription filtered on player-update events for object id "p1". -/
def exSubFiltered : Subscription := ⟨2, some [EventType.playerUpdated], some ["p1"]⟩

/-- A connected client with two subscribers. -/
def exSubs : ClientState := { exConnected with subscribers := [exSubAll, exSubFiltered] }

/-- A sample player-update event for object id "p1". -/
def exEvent : MassEvent := ⟨EventType.playerUpdated, some "p1", EventData.value JValue.null⟩

/-- Provider payload of a sample `PROVIDERS_UPDATED` event. -/
def provA : ProviderInstance := ⟨"a", "spotify", true, true⟩

/-- A previously cached provider instance. -/
def provOld : ProviderInstance := ⟨"old1", "filesystem", true, false⟩

/-- A connected client with one cached provider instance. -/
def exProvState : ClientState := { exConnected with providers := [("old1", provOld)] }

/-- An unavailable streaming provider instance. -/
def provS1 : ProviderInstance := ⟨"sp1", "spotify", false, true⟩

/-- An available streaming provider instance of the same domain. -/
def provS2 : ProviderInstance := ⟨"sp2", "spotify", true, true⟩

/-- An unavailable non-streaming provider instance. -/
def provFS : ProviderInstance := ⟨"fs1", "filesystem", false, false⟩

/-- A connected client with three cached provider instances. -/
def exProvTable : ClientState :=
  { exConnected with providers := [("sp1", provS1), ("sp2", provS2), ("fs1", provFS)] }

/-! ### Helper lemmas about the pending-futures table -/

theorem keyAbsent_of_lt_counter (n : Nat) (l : List (MsgId × FutureState))
    (hlt : ∀ p ∈ l, p.1 < n) (m : Nat) (hm : n ≤ m) : keyAbsent m l := by
  intro p hp
  exact Nat.ne_of_lt (Nat.lt_of_lt_of_le (hlt p hp) hm)

theorem lookupFuture_append_absent (mid : MsgId) (l l2 : List (MsgId × FutureState))
    (h : keyAbsent mid l) :
    lookupFuture mid (l ++ l2) = lookupFuture mid l2 := by
  induction l with
  | nil => rfl
  | cons p rest ih =>
      obtain ⟨k, v⟩ := p
      have hk : k ≠ mid := h (k, v) (by simp)
      simp only [List.cons_append, lookupFuture, if_neg hk]
      exact ih (fun q hq => h q (List.mem_cons_of_mem _ hq))

theorem setFuture_append_absent (mid : MsgId) (fs : FutureState)
    (l l2 : List (MsgId × FutureState)) (h : keyAbsent mid l) :
    setFuture mid fs (l ++ l2) = l ++ setFuture mid fs l2 := by
  induction l with
  | nil => rfl
  | cons p rest ih =>
      obtain ⟨k, v⟩ := p
      have hk : k ≠ mid := h (k, v) (by simp)
      simp only [List.cons_append, setFuture, if_neg hk]
      exact congrArg (List.cons (k, v)) (ih (fun q hq => h q (List.mem_cons_of_mem _ hq)))

theorem countKey_absent (mid : MsgId) (l : List (MsgId × FutureState))
    (h : keyAbsent mid l) :
    l.countP (fun p => p.1 == mid) = 0 := by
  rw [List.countP_eq_zero]
  intro p hp
  simpa using h p hp

theorem lookupFuture_set_self (mid : MsgId) (fs fs0 : FutureState)
    (l : List (MsgId × FutureState)) (h : lookupFuture mid l = some fs0) :
    lookupFuture mid (setFuture mid fs l) = some fs := by
  induction l with
  | nil => simp [lookupFuture] at h
  | cons p rest ih =>
      obtain ⟨k, v⟩ := p
      by_cases hk : k = mid
      · simp [setFuture, lookupFuture, hk]
      · simp only [lookupFuture, if_neg hk] at h
        simp only [setFuture, if_neg hk, lookupFuture]
        exact ih h

theorem lookupFuture_set_other (mid mid2 : MsgId) (fs : FutureState)
    (l : List (MsgId × FutureState)) (h : mid ≠ mid2) :
    lookupFuture mid (setFuture mid2 fs l) = lookupFuture mid l := by
  induction l with
  | nil => rfl
  | cons p rest ih =>
      obtain ⟨k, v⟩ := p
      by_cases hk : k = mid2
      · subst hk
        simp only [setFuture, if_pos rfl, lookupFuture]
        rw [if_neg (fun hkm => h hkm.symm), if_neg (fun hkm => h hkm.symm)]
      · simp only [setFuture, if_neg hk, lookupFuture]
        by_cases hkm : k = mid
        · rw [if_pos hkm, if_pos hkm]
        · rw [if_neg hkm, if_neg hkm]
          exact ih

theorem lookupFuture_map_cancel (mid : MsgId) (l : List (MsgId × FutureState)) :
    lookupFuture mid (l.map (fun p => (p.1, cancelFuture p.2)))
      = (lookupFuture mid l).map cancelFuture := by
  induction l with
  | nil => rfl
  | cons p rest ih =>
      obtain ⟨k, v⟩ := p
      by_cases hk : k = mid
      · simp [lookupFuture, hk]
      · simp only [List.map_cons, lookupFuture, if_neg hk]
        exact ih

theorem cancelFuture_ne_pending (fs : FutureState) :
    cancelFuture fs ≠ FutureState.pending := by
  cases fs <;> simp [cancelFuture]

/-- A table in which every future is settled drains to the empty table when
every awaiting `send_command` caller resumes (each one pops its own entry in
its `finally`). -/
theorem foldl_finishStep_drains (l : List (MsgId × FutureState)) :
    ∀ s : ClientState, s.result_futures = l →
      (∀ p ∈ l, p.2 ≠ FutureState.pending) →
      ((l.map Prod.fst).foldl finishStep s).result_futures = [] := by
  induction l with
  | nil =>
      intro s hs _
      simpa using hs
  | cons p rest ih =>
      intro s hs hset
      obtain ⟨k, v⟩ := p
      have hv : v ≠ FutureState.pending := hset (k, v) (by simp)
      have hstep : finishStep s k = { s with result_futures := rest } := by
        have hl : lookupFuture k s.result_futures = some v := by
          rw [hs]; simp [lookupFuture]
        have hp : popFuture k s.result_futures = rest := by
          rw [hs]; simp [popFuture]
        cases v with
        | pending => exact absurd rfl hv
        | resolved w => simp [finishStep, send_command_finish, hl, hp]
        | rejected e => simp [finishStep, send_command_finish, hl, hp]
        | cancelled => simp [finishStep, send_command_finish, hl, hp]
      simp only [List.map_cons, List.foldl_cons, hstep]
      exact ih { s with result_futures := rest } rfl
        (fun q hq => hset q (List.mem_cons_of_mem _ hq))

/-! ### Helper lemmas about the provider dict and the domain scan -/

theorem lookupProv_dictInsert_other (k k0 : String) (v : ProviderInstance)
    (d : List (String × ProviderInstance)) (h : k0 ≠ k) :
    lookupProv k (dictInsert k0 v d) = lookupProv k d := by
  induction d with
  | nil => simp [dictInsert, lookupProv, h]
  | cons p rest ih =>
      obtain ⟨k1, v1⟩ := p
      by_cases h1 : k1 = k0
      · subst h1
        simp only [dictInsert, if_pos rfl, lookupProv]
        rw [if_neg h, if_neg h]
      · simp only [dictInsert, if_neg h1, lookupProv]
        by_cases h2 : k1 = k
        · rw [if_pos h2, if_pos h2]
        · rw [if_neg h2, if_neg h2]
          exact ih

theorem lookupProv_buildProviderDict_absent (k : String) (l : List ProviderInstance) :
    ∀ acc : List (String × ProviderInstance),
      lookupProv k acc = none → (∀ x ∈ l, x.instance_id ≠ k) →
      lookupProv k (l.foldl (fun d x => dictInsert x.instance_id x d) acc) = none := by
  induction l with
  | nil =>
      intro acc hacc _
      simpa using hacc
  | cons x rest ih =>
      intro acc hacc habs
      have hx : x.instance_id ≠ k := habs x (by simp)
      simp only [List.foldl_cons]
      exact ih (dictInsert x.instance_id x acc)
        (by rw [lookupProv_dictInsert_other _ _ _ _ hx]; exact hacc)
        (fun y hy => habs y (List.mem_cons_of_mem _ hy))

theorem find_domain_eq_find (d : String) (ru : Bool)
    (l : List (String × ProviderInstance)) :
    find_domain d ru l
      = (l.map Prod.snd).find? (fun p => (p.domain == d) && (ru || p.available)) := by
  induction l with
  | nil => rfl
  | cons q rest ih =>
      obtain ⟨k, prov⟩ := q
      by_cases hd : prov.domain = d
      · by_cases ha : (ru || prov.available) = true
        · rw [List.map_cons, List.find?_cons_of_pos _ (by simp [hd, ha])]
          simp only [find_domain, if_neg (not_not_intro hd), if_pos ha]
        · rw [List.map_cons, List.find?_cons_of_neg _ (by simp [hd, ha])]
          simp only [find_domain, if_neg (not_not_intro hd), if_neg ha]
          exact ih
      · rw [List.map_cons, List.find?_cons_of_neg _ (by simp [hd])]
        simp only [find_domain, if_pos hd]
        exact ih

theorem lookupProv_build_absent (k : String) (l : List ProviderInstance)
    (habs : ∀ x ∈ l, x.instance_id ≠ k) :
    lookupProv k (buildProviderDict l) = none :=
  lookupProv_buildProviderDict_absent k l [] rfl habs

theorem keyAbsent_append (mid : MsgId) (l l2 : List (MsgId × FutureState))
    (h : keyAbsent mid l) (h2 : keyAbsent mid l2) : keyAbsent mid (l ++ l2) := by
  intro p hp
  rcases List.mem_append.mp hp with hl | hr
  · exact h p hl
  · exact h2 p hr

/-! ### Helper lemmas about result handling -/

theorem handle_success_hit (errMap : Nat → JValue → TypedError) (i : MsgId)
    (v : JValue) (s : ClientState) (fs0 : FutureState)
    (h : lookupFuture i s.result_futures = some fs0) :
    handle_result errMap (ResultMessage.success i v) s
      = { s with result_futures :=
            setFuture i (FutureState.resolved v) s.result_futures } := by
  simp [handle_result, ResultMessage.message_id, h]

theorem handle_error_hit (errMap : Nat → JValue → TypedError) (j : MsgId)
    (code : Nat) (d : JValue) (s : ClientState) (fs0 : FutureState)
    (h : lookupFuture j s.result_futures = some fs0) :
    handle_result errMap (ResultMessage.error j code d) s
      = { s with result_futures :=
            (setFuture j (FutureState.rejected (ClientError.serverError (errMap code d)))
              s.result_futures) } := by
  simp [handle_result, ResultMessage.message_id, h]

theorem send_command_finish_value (mid : MsgId) (s : ClientState) (v : JValue)
    (h : lookupFuture mid s.result_futures = some (FutureState.resolved v)) :
    (send_command_finish mid s).map (fun q => q.2) = some (Except.ok v) := by
  simp [send_command_finish, h]

theorem send_command_finish_err (mid : MsgId) (s : ClientState) (e : ClientError)
    (h : lookupFuture mid s.result_futures = some (FutureState.rejected e)) :
    (send_command_finish mid s).map (fun q => q.2) = some (Except.error e) := by
  simp [send_command_finish, h]

/-- Processing one success and one error result for two distinct registered
pending commands, in either order, settles each future with its own
message's payload. -/
theorem two_results_any_order (errMap : Nat → JValue → TypedError)
    (S2 : ClientState) (i j : MsgId) (hij : i ≠ j)
    (hi : lookupFuture i S2.result_futures = some FutureState.pending)
    (hj : lookupFuture j S2.result_futures = some FutureState.pending)
    (v d : JValue) (code : Nat) (sf : ClientState)
    (hsf : sf = handle_result errMap (ResultMessage.error j code d)
                  (handle_result errMap (ResultMessage.success i v) S2)
         ∨ sf = handle_result errMap (ResultMessage.success i v)
                  (handle_result errMap (ResultMessage.error j code d) S2)) :
    (send_command_finish i sf).map (fun q => q.2) = some (Except.ok v)
    ∧ (send_command_finish j sf).map (fun q => q.2)
        = some (Except.error (ClientError.serverError (errMap code d))) := by
  obtain rfl | rfl := hsf
  · have h1 := handle_success_hit errMap i v S2 _ hi
    have hj1 : lookupFuture j
        (handle_result errMap (ResultMessage.success i v) S2).result_futures
        = some FutureState.pending := by
      rw [h1]
      show lookupFuture j (setFuture i (FutureState.resolved v) S2.result_futures)
        = some FutureState.pending
      rw [lookupFuture_set_other j i _ _ (Ne.symm hij)]
      exact hj
    have h2 := handle_error_hit errMap j code d
      (handle_result errMap (ResultMessage.success i v) S2) _ hj1
    have hrf : (handle_result errMap (ResultMessage.error j code d)
          (handle_result errMap (ResultMessage.success i v) S2)).result_futures
        = setFuture j (FutureState.rejected (ClientError.serverError (errMap code d)))
            (setFuture i (FutureState.resolved v) S2.result_futures) := by
      rw [h2, h1]
    have hfi : lookupFuture i (handle_result errMap (ResultMessage.error j code d)
          (handle_result errMap (ResultMessage.success i v) S2)).result_futures
        = some (FutureState.resolved v) := by
      rw [hrf, lookupFuture_set_other i j _ _ hij]
      exact lookupFuture_set_self i _ _ _ hi
    have hfj : lookupFuture j (handle_result errMap (ResultMessage.error j code d)
          (handle_result errMap (ResultMessage.success i v) S2)).result_futures
        = some (FutureState.rejected (ClientError.serverError (errMap code d))) := by
      rw [hrf]
      refine lookupFuture_set_self j _ FutureState.pending _ ?_
      rw [lookupFuture_set_other j i _ _ (Ne.symm hij)]
      exact hj
    exact ⟨send_command_finish_value i _ v hfi, send_command_finish_err j _ _ hfj⟩
  · have h1 := handle_error_hit errMap j code d S2 _ hj
    have hi1 : lookupFuture i
        (handle_result errMap (ResultMessage.error j code d) S2).result_futures
        = some FutureState.pending := by
      rw [h1]
      show lookupFuture i (setFuture j
          (FutureState.rejected (ClientError.serverError (errMap code d)))
          S2.result_futures) = some FutureState.pending
      rw [lookupFuture_set_other i j _ _ hij]
      exact hi
    have h2 := handle_success_hit errMap i v
      (handle_result errMap (ResultMessage.error j code d) S2) _ hi1
    have hrf : (handle_result errMap (ResultMessage.success i v)
          (handle_result errMap (ResultMessage.error j code d) S2)).result_futures
        = setFuture i (FutureState.resolved v)
            (setFuture j (FutureState.rejected (ClientError.serverError (errMap code d)))
              S2.result_futures) := by
      rw [h2, h1]
    have hfi : lookupFuture i (handle_result errMap (ResultMessage.success i v)
          (handle_result errMap (ResultMessage.error j code d) S2)).result_futures
        = some (FutureState.resolved v) := by
      rw [hrf]
      refine lookupFuture_set_self i _ FutureState.pending _ ?_
      rw [lookupFuture_set_other i j _ _ hij]
      exact hi
    have hfj : lookupFuture j (handle_result errMap (ResultMessage.success i v)
          (handle_result errMap (ResultMessage.error j code d) S2)).result_futures
        = some (FutureState.rejected (ClientError.serverError (errMap code d))) := by
      rw [hrf, lookupFuture_set_other j i _ _ (Ne.symm hij)]
      exact lookupFuture_set_self j _ _ _ hj
    exact ⟨send_command_finish_value i _ v hfi, send_command_finish_err j _ _ hfj⟩

theorem schemaIncompatible_some (require_schema : Option Nat) (info : ServerInfoMessage) :
    schemaIncompatible require_schema (some info)
      = require_schema.any (fun r => decide (info.schema_version < r)) := by
  cases require_schema <;> rfl

theorem matchesFilters_iff (sub : Subscription) (e : MassEvent) :
    matchesFilters sub e = true
      ↔ ((sub.event_filter = none ∨ ∃ fl, sub.event_filter = some fl ∧ e.event ∈ fl)
          ∧ (sub.id_filter = none
              ∨ ∃ fl oid, sub.id_filter = some fl ∧ e.object_id = some oid ∧ oid ∈ fl)) := by
  obtain ⟨cb, ef, idf⟩ := sub
  cases ef with
  | none =>
      cases idf with
      | none => simp [matchesFilters]
      | some fl =>
          cases ho : e.object_id with
          | none => simp [matchesFilters, ho]
          | some oid => simp [matchesFilters, ho]
  | some fl =>
      cases idf with
      | none => simp [matchesFilters]
      | some fl2 =>
          cases ho : e.object_id with
          | none => simp [matchesFilters, ho]
          | some oid => simp [matchesFilters, ho, and_comm]

/-! ### The claims -/

/-- Claim C2: when `connect()` receives a ServerInfo whose
`min_supported_schema_version` is strictly greater than the client's schema
version, it fails with `InvalidServerVersion` (IncompatibleVersion), the
transport is disconnected at the moment the error is raised, and no
ServerInfo is captured (`server_info` is left exactly as it was, hence
still absent). -/
theorem C2_connect_incompatible_version (clientSchema : Nat)
    (info : ServerInfoMessage) (s : ClientState) (hnc : s.connected = false)
    (hver : clientSchema < info.min_supported_schema_version) :
    (connect clientSchema info s).2
      = Except.error (ClientError.invalidServerVersion
          (connectVersionMsg info.schema_version info.min_supported_schema_version))
    ∧ (connect clientSchema info s).1.connected = false
    ∧ (connect clientSchema info s).1.server_info = s.server_info := by
  simp [connect, hnc, hver]

/-- Witness for C2 at the spec's scenario: client schema 25, server
minimum 30, starting from the freshly initialised client. -/
theorem C2_witness :
    (connect 25 exServerInfo30 exInit).2
      = Except.error (ClientError.invalidServerVersion
          (connectVersionMsg exServerInfo30.schema_version
            exServerInfo30.min_supported_schema_version))
    ∧ (connect 25 exServerInfo30 exInit).1.connected = false
    ∧ (connect 25 exServerInfo30 exInit).1.server_info = exInit.server_info :=
  C2_connect_incompatible_version 25 exServerInfo30 exInit rfl (by decide)

/-- Claim C4: `send_command` fails with `InvalidState` ("Not connected")
whenever no established connection (or no captured loop) exists, and fails
with `InvalidServerVersion` when `require_schema` is present and strictly
exceeds the captured ServerInfo's `schema_version`; in both cases the
returned state is exactly the input state, so no command message has been
constructed, registered or transmitted. -/
theorem C4_send_command_guards (command : String) (require_schema : Option Nat)
    (args : List (String × JValue)) (s : ClientState) :
    (s.connected = false ∨ s.loopSet = false →
      send_command_begin command require_schema args s
        = (s, Except.error (ClientError.invalidState notConnectedMsg)))
    ∧ (∀ r info, s.connected = true → s.loopSet = true →
        require_schema = some r → s.server_info = some info →
        info.schema_version < r →
        send_command_begin command require_schema args s
          = (s, Except.error (ClientError.invalidServerVersion (cmdVersionMsg r)))) := by
  constructor
  · rintro (h | h) <;> simp [send_command_begin, h]
  · rintro r info hc hl rfl hsi hr
    simp [send_command_begin, hc, hl, schemaIncompatible, hsi, hr]

/-- Witness for C4: a disconnected client raises `InvalidState`, and a
connected client (schema 26) asked for schema 99 raises
`InvalidServerVersion`, both leaving the state untouched. -/
theorem C4_witness :
    send_command_begin "players/cmd/play" none [] exInit
      = (exInit, Except.error (ClientError.invalidState notConnectedMsg))
    ∧ send_command_begin "players/cmd/play" (some 99) [] exConnected
      = (exConnected,
          Except.error (ClientError.invalidServerVersion (cmdVersionMsg 99))) :=
  ⟨(C4_send_command_guards "players/cmd/play" none [] exInit).1 (Or.inl rfl),
    (C4_send_command_guards "players/cmd/play" (some 99) [] exConnected).2 99
      exServerInfo rfl rfl rfl rfl (by decide)⟩

/-- Counterexample to claim C5 as stated: with the transport disconnected
but a ServerInfo still captured (`disconnect` never clears `_server_info`),
`send_command` fails with `InvalidState` ("Not connected") while
`send_command_no_wait` succeeds — the preconditions of the two send paths
are not the same condition. -/
theorem C5_counterexample :
    exStaleInfo.connected = false
    ∧ (send_command_begin "players/cmd/play" none [] exStaleInfo).2
        = Except.error (ClientError.invalidState notConnectedMsg)
    ∧ (send_command_no_wait "players/cmd/play" none [] exStaleInfo).2
        = Except.ok () :=
  ⟨rfl, rfl, rfl⟩

/-- Claim C5 (amended): `send_command_no_wait` applies the same schema check
as `send_command`, but its connectivity precondition differs: it fails with
`InvalidState` ("Not connected") exactly when no ServerInfo is captured
(`server_info` absent), regardless of `connection.connected`; with a
captured ServerInfo it fails with `InvalidServerVersion` under
`send_command`'s schema condition, and otherwise transmits exactly one
command message without registering any pending future and returns
immediately. -/
theorem C5_no_wait_behaviour (command : String) (require_schema : Option Nat)
    (args : List (String × JValue)) (s : ClientState) :
    (s.server_info = none →
      send_command_no_wait command require_schema args s
        = (s, Except.error (ClientError.invalidState notConnectedMsg)))
    ∧ (∀ r info, s.server_info = some info → require_schema = some r →
        info.schema_version < r →
        send_command_no_wait command require_schema args s
          = (s, Except.error (ClientError.invalidServerVersion (cmdVersionMsg r))))
    ∧ (∀ info, s.server_info = some info →
        schemaIncompatible require_schema s.server_info = false →
        (send_command_no_wait command require_schema args s).1.result_futures
            = s.result_futures
        ∧ (send_command_no_wait command require_schema args s).1.sentMessages
            = s.sentMessages ++ [⟨s.uuidCounter, command, args⟩]
        ∧ (send_command_no_wait command require_schema args s).2 = Except.ok ()) := by
  refine ⟨?_, ?_, ?_⟩
  · intro h
    simp [send_command_no_wait, h]
  · rintro r info hsi rfl hr
    simp [send_command_no_wait, hsi, hr]
  · rintro info hsi hcheck
    rw [hsi, schemaIncompatible_some] at hcheck
    simp [send_command_no_wait, hsi, hcheck]

/-- Witness for C5 (amended), on the stale-info state: the command is
transmitted, nothing is registered, and the call returns ok. -/
theorem C5_witness :
    (send_command_no_wait "players/cmd/play" none
        [("player_id", JValue.jstr "p1")] exStaleInfo).1.result_futures
      = exStaleInfo.result_futures
    ∧ (send_command_no_wait "players/cmd/play" none
        [("player_id", JValue.jstr "p1")] exStaleInfo).1.sentMessages
      = exStaleInfo.sentMessages
        ++ [⟨exStaleInfo.uuidCounter, "players/cmd/play",
              [("player_id", JValue.jstr "p1")]⟩]
    ∧ (send_command_no_wait "players/cmd/play" none
        [("player_id", JValue.jstr "p1")] exStaleInfo).2 = Except.ok () :=
  (C5_no_wait_behaviour "players/cmd/play" none
    [("player_id", JValue.jstr "p1")] exStaleInfo).2.2 exServerInfo rfl rfl

/-- Claim C8: a result message (success or error) whose correlation id has
no matching entry in `_result_futures` — for example a late reply arriving
after cancellation — is silently ignored: the state is returned unchanged
and no error is raised. -/
theorem C8_unmatched_result_ignored (errMap : Nat → JValue → TypedError)
    (s : ClientState) (msg : ResultMessage)
    (h : lookupFuture msg.message_id s.result_futures = none) :
    handle_result errMap msg s = s := by
  simp [handle_result, h]

/-- Witness for C8: a success result for unknown correlation id 3 leaves
the client with pending id 7 untouched. -/
theorem C8_witness :
    handle_result exErrMap (ResultMessage.success 3 JValue.null) exPending
      = exPending :=
  C8_unmatched_result_ignored exErrMap exPending
    (ResultMessage.success 3 JValue.null) (by decide)

/-- Counterexample to claim C3 as stated, at the concrete state
`exPending` (one pending command, id 7): when `disconnect` returns, an
entry still remains in `_result_futures` (the table was not cleared), and
the entry's future is in the plain `cancelled` state produced by
`future.cancel()` — in particular it was not settled with a
`ConnectionClosed` error. -/
theorem C3_counterexample :
    (disconnect exPending).result_futures ≠ []
    ∧ lookupFuture 7 (disconnect exPending).result_futures
        = some FutureState.cancelled
    ∧ lookupFuture 7 (disconnect exPending).result_futures
        ≠ some (FutureState.rejected ClientError.connectionClosed) := by
  refine ⟨by decide, by decide, by decide⟩

/-- Claim C3 (amended): `disconnect` settles every operation that was
pending at the moment of the call by plain cancellation
(`future.cancel()`, observed by the caller as `CancelledError`, not as a
`ConnectionClosed` rejection), exactly once — already-settled futures are
untouched, since cancelling a done future is a no-op — and leaves no
future pending; the entries are not removed by `disconnect` itself but by
each awaiting `send_command` caller's `finally` as it resumes, after which
no entry remains in the table. -/
theorem C3_disconnect_settles_all (s : ClientState) :
    (∀ mid fs, lookupFuture mid s.result_futures = some fs →
        lookupFuture mid (disconnect s).result_futures = some (cancelFuture fs))
    ∧ (∀ p ∈ (disconnect s).result_futures, p.2 ≠ FutureState.pending)
    ∧ (resumeWaiters (disconnect s)).result_futures = [] := by
  have hset : ∀ p ∈ (disconnect s).result_futures, p.2 ≠ FutureState.pending := by
    intro p hp
    have hp2 : p ∈ s.result_futures.map (fun q => (q.1, cancelFuture q.2)) := hp
    obtain ⟨q, _, rfl⟩ := List.mem_map.mp hp2
    exact cancelFuture_ne_pending q.2
  refine ⟨?_, hset, ?_⟩
  · intro mid fs h
    show lookupFuture mid (s.result_futures.map (fun q => (q.1, cancelFuture q.2)))
      = some (cancelFuture fs)
    rw [lookupFuture_map_cancel, h]
    rfl
  · exact foldl_finishStep_drains (disconnect s).result_futures (disconnect s) rfl hset

/-- Witness for C3 (amended): the pending future of `exPending` is
cancelled by `disconnect`, and once its awaiting caller resumes the table
is empty. -/
theorem C3_witness :
    lookupFuture 7 (disconnect exPending).result_futures
      = some (cancelFuture FutureState.pending)
    ∧ (resumeWaiters (disconnect exPending)).result_futures = [] :=
  ⟨(C3_disconnect_settles_all exPending).1 7 FutureState.pending (by decide),
    (C3_disconnect_settles_all exPending).2.2⟩

/-- Claim C1: two back-to-back `send_command` calls generate distinct fresh
correlation ids (`uuid.uuid4().hex` modelled by the fresh-id counter), each
registering exactly one pending future under its own id, and whichever
order the two results — one success, one error — are processed in, each
caller's awaited outcome is exactly the payload of the result message
whose `message_id` equals that caller's correlation id. -/
theorem C1_correlated_results (errMap : Nat → JValue → TypedError)
    (s : ClientState)
    (hinv : ∀ p ∈ s.result_futures, p.1 < s.uuidCounter)
    (hconn : s.connected = true) (hloop : s.loopSet = true)
    (c1 c2 : String) (a1 a2 : List (String × JValue))
    (v d : JValue) (code : Nat) (sf : ClientState)
    (hsf : sf = handle_result errMap (ResultMessage.error (s.uuidCounter + 1) code d)
              (handle_result errMap (ResultMessage.success s.uuidCounter v)
                (send_command_begin c2 none a2
                  (send_command_begin c1 none a1 s).1).1)
         ∨ sf = handle_result errMap (ResultMessage.success s.uuidCounter v)
              (handle_result errMap (ResultMessage.error (s.uuidCounter + 1) code d)
                (send_command_begin c2 none a2
                  (send_command_begin c1 none a1 s).1).1)) :
    (send_command_begin c1 none a1 s).2 = Except.ok s.uuidCounter
    ∧ (send_command_begin c2 none a2 (send_command_begin c1 none a1 s).1).2
        = Except.ok (s.uuidCounter + 1)
    ∧ s.uuidCounter ≠ s.uuidCounter + 1
    ∧ ((send_command_begin c2 none a2
          (send_command_begin c1 none a1 s).1).1.result_futures.countP
        (fun p => p.1 == s.uuidCounter)) = 1
    ∧ ((send_command_begin c2 none a2
          (send_command_begin c1 none a1 s).1).1.result_futures.countP
        (fun p => p.1 == s.uuidCounter + 1)) = 1
    ∧ (send_command_finish s.uuidCounter sf).map (fun q => q.2)
        = some (Except.ok v)
    ∧ (send_command_finish (s.uuidCounter + 1) sf).map (fun q => q.2)
        = some (Except.error (ClientError.serverError (errMap code d))) := by
  have hij : s.uuidCounter ≠ s.uuidCounter + 1 := Nat.ne_of_lt (Nat.lt_succ_self _)
  have hji : s.uuidCounter + 1 ≠ s.uuidCounter := Ne.symm hij
  have habs1 : keyAbsent s.uuidCounter s.result_futures :=
    keyAbsent_of_lt_counter s.uuidCounter s.result_futures hinv _ (Nat.le_refl _)
  have habs2 : keyAbsent (s.uuidCounter + 1) s.result_futures :=
    keyAbsent_of_lt_counter s.uuidCounter s.result_futures hinv _ (Nat.le_succ _)
  have e1 : send_command_begin c1 none a1 s
      = ({ s with
            uuidCounter := s.uuidCounter + 1,
            result_futures := s.result_futures ++ [(s.uuidCounter, FutureState.pending)],
            sentMessages := s.sentMessages ++ [⟨s.uuidCounter, c1, a1⟩] },
          Except.ok s.uuidCounter) := by
    simp [send_command_begin, hconn, hloop, schemaIncompatible]
  have e2 : send_command_begin c2 none a2 (send_command_begin c1 none a1 s).1
      = ({ s with
            uuidCounter := s.uuidCounter + 1 + 1,
            result_futures := s.result_futures ++ [(s.uuidCounter, FutureState.pending)]
              ++ [(s.uuidCounter + 1, FutureState.pending)],
            sentMessages := s.sentMessages ++ [⟨s.uuidCounter, c1, a1⟩]
              ++ [⟨s.uuidCounter + 1, c2, a2⟩] },
          Except.ok (s.uuidCounter + 1)) := by
    rw [e1]
    simp [send_command_begin, hconn, hloop, schemaIncompatible]
  have hi : lookupFuture s.uuidCounter
      (send_command_begin c2 none a2
        (send_command_begin c1 none a1 s).1).1.result_futures
      = some FutureState.pending := by
    rw [e2]
    show lookupFuture s.uuidCounter
      (s.result_futures ++ [(s.uuidCounter, FutureState.pending)]
        ++ [(s.uuidCounter + 1, FutureState.pending)]) = some FutureState.pending
    rw [List.append_assoc, lookupFuture_append_absent _ _ _ habs1]
    simp [lookupFuture]
  have hj : lookupFuture (s.uuidCounter + 1)
      (send_command_begin c2 none a2
        (send_command_begin c1 none a1 s).1).1.result_futures
      = some FutureState.pending := by
    rw [e2]
    show lookupFuture (s.uuidCounter + 1)
      (s.result_futures ++ [(s.uuidCounter, FutureState.pending)]
        ++ [(s.uuidCounter + 1, FutureState.pending)]) = some FutureState.pending
    rw [List.append_assoc, lookupFuture_append_absent _ _ _ habs2]
    simp [lookupFuture, hij]
  have hcount1 : ((send_command_begin c2 none a2
        (send_command_begin c1 none a1 s).1).1.result_futures.countP
      (fun p => p.1 == s.uuidCounter)) = 1 := by
    rw [e2]
    show ((s.result_futures ++ [(s.uuidCounter, FutureState.pending)]
        ++ [(s.uuidCounter + 1, FutureState.pending)]).countP
      (fun p => p.1 == s.uuidCounter)) = 1
    rw [List.countP_append, List.countP_append, countKey_absent _ _ habs1]
    simp [List.countP_cons, hji]
  have hcount2 : ((send_command_begin c2 none a2
        (send_command_begin c1 none a1 s).1).1.result_futures.countP
      (fun p => p.1 == s.uuidCounter + 1)) = 1 := by
    rw [e2]
    show ((s.result_futures ++ [(s.uuidCounter, FutureState.pending)]
        ++ [(s.uuidCounter + 1, FutureState.pending)]).countP
      (fun p => p.1 == s.uuidCounter + 1)) = 1
    rw [List.countP_append, List.countP_append, countKey_absent _ _ habs2]
    simp [List.countP_cons, hij]
  obtain ⟨hfi, hfj⟩ := two_results_any_order errMap
    (send_command_begin c2 none a2 (send_command_begin c1 none a1 s).1).1
    s.uuidCounter (s.uuidCounter + 1) hij hi hj v d code sf hsf
  exact ⟨by rw [e1], by rw [e2], hij, hcount1, hcount2, hfi, hfj⟩

/-- Witness for C1: two `players/cmd/play` commands from the connected
client receive correlation ids 0 and 1; with the success for id 0 and the
error for id 1 processed (success first), caller 0 gets the success
payload and caller 1 the mapped error. -/
theorem C1_witness :
    (send_command_finish 0 exSfA).map (fun q => q.2)
        = some (Except.ok (JValue.jstr "queued"))
    ∧ (send_command_finish 1 exSfA).map (fun q => q.2)
        = some (Except.error (ClientError.serverError (exErrMap 5 JValue.null))) :=
  And.intro
    ((C1_correlated_results exErrMap exConnected (by decide) rfl rfl
        "players/cmd/play" "players/cmd/play"
        [("player_id", JValue.jstr "p1")] [("player_id", JValue.jstr "p1")]
        (JValue.jstr "queued") JValue.null 5 exSfA (Or.inl rfl)).2.2.2.2.2.1)
    ((C1_correlated_results exErrMap exConnected (by decide) rfl rfl
        "players/cmd/play" "players/cmd/play"
        [("player_id", JValue.jstr "p1")] [("player_id", JValue.jstr "p1")]
        (JValue.jstr "queued") JValue.null 5 exSfA (Or.inl rfl)).2.2.2.2.2.2)

/-- Claim C6: for an event dispatched while running (teardown flag not
set), the deliveries are exactly the subscribers whose filters match, in
registration order; a subscriber is delivered to iff (its event filter is
unset OR the event's type is in it) AND (its id filter is unset OR the
event's object id is in it); a subscription registered with both filters
omitted matches every event. -/
theorem C6_event_dispatch_filters (s : ClientState) (h : s.stop_called = false)
    (e : MassEvent) :
    (handle_event e s).deliveredLog = s.deliveredLog ++ dispatchList s.subscribers e
    ∧ (∀ sub ∈ s.subscribers,
        (sub ∈ s.subscribers.filter (fun x => matchesFilters x e)
          ↔ ((sub.event_filter = none
                ∨ ∃ fl, sub.event_filter = some fl ∧ e.event ∈ fl)
              ∧ (sub.id_filter = none
                ∨ ∃ fl oid, sub.id_filter = some fl ∧ e.object_id = some oid
                    ∧ oid ∈ fl))))
    ∧ (∀ cb, matchesFilters ⟨cb, none, none⟩ e = true)
    ∧ (∀ cb, (subscribe cb EventFilterArg.noFilter IdFilterArg.noFilter s).subscribers
        = s.subscribers ++ [⟨cb, none, none⟩]) := by
  refine ⟨?_, ?_, ?_, ?_⟩
  · by_cases he : e.event = EventType.providersUpdated <;>
      simp [handle_event, h, he]
  · intro sub hsub
    rw [List.mem_filter]
    rw [← matchesFilters_iff sub e]
    simp [hsub]
  · intro cb
    rfl
  · intro cb
    rfl

/-- Witness for C6: the player-update event for "p1" is appended to the
delivery log through the filter, and a filterless subscription matches. -/
theorem C6_witness :
    (handle_event exEvent exSubs).deliveredLog
      = exSubs.deliveredLog ++ dispatchList exSubs.subscribers exEvent
    ∧ matchesFilters ⟨42, none, none⟩ exEvent = true :=
  ⟨(C6_event_dispatch_filters exSubs rfl exEvent).1,
    (C6_event_dispatch_filters exSubs rfl exEvent).2.2.1 42⟩

/-- Claim C7: an `ErrorResultMessage` whose correlation id matches a
pending command rejects that command's future with the typed error
obtained by applying the error-taxonomy map to the error code, the
server-supplied detail payload passed to it unchanged; the awaiting
caller then receives exactly that error. -/
theorem C7_error_result_mapping (errMap : Nat → JValue → TypedError)
    (s : ClientState) (mid : MsgId) (code : Nat) (d : JValue)
    (h : lookupFuture mid s.result_futures = some FutureState.pending) :
    lookupFuture mid
        (handle_result errMap (ResultMessage.error mid code d) s).result_futures
      = some (FutureState.rejected (ClientError.serverError (errMap code d)))
    ∧ (send_command_finish mid
          (handle_result errMap (ResultMessage.error mid code d) s)).map
        (fun q => q.2)
      = some (Except.error (ClientError.serverError (errMap code d))) := by
  have h1 := handle_error_hit errMap mid code d s _ h
  have hl : lookupFuture mid
      (handle_result errMap (ResultMessage.error mid code d) s).result_futures
      = some (FutureState.rejected (ClientError.serverError (errMap code d))) := by
    rw [h1]
    show lookupFuture mid
      (setFuture mid (FutureState.rejected (ClientError.serverError (errMap code d)))
        s.result_futures)
      = some (FutureState.rejected (ClientError.serverError (errMap code d)))
    exact lookupFuture_set_self mid _ _ _ h
  exact ⟨hl, send_command_finish_err mid _ _ hl⟩

/-- Witness for C7: the error result with code 3 and detail "oops" for
pending id 7 rejects it with the mapped typed error carrying "oops". -/
theorem C7_witness :
    lookupFuture 7 (handle_result exErrMap
        (ResultMessage.error 7 3 (JValue.jstr "oops")) exPending).result_futures
      = some (FutureState.rejected
          (ClientError.serverError (exErrMap 3 (JValue.jstr "oops"))))
    ∧ (send_command_finish 7 (handle_result exErrMap
          (ResultMessage.error 7 3 (JValue.jstr "oops")) exPending)).map
        (fun q => q.2)
      = some (Except.error
          (ClientError.serverError (exErrMap 3 (JValue.jstr "oops")))) :=
  C7_error_result_mapping exErrMap exPending 7 3 (JValue.jstr "oops") (by decide)

/-- Claim C9: a `PROVIDERS_UPDATED` event processed while running replaces
`_providers` wholesale with exactly the payload's instances keyed by
`instance_id`: the new mapping is the dict built from the payload alone,
and every previously cached instance whose id is not in the payload is
gone — no merge with prior state occurs. -/
theorem C9_providers_updated_wholesale (s : ClientState)
    (h : s.stop_called = false) (oid : Option String)
    (l : List ProviderInstance) :
    (handle_event ⟨EventType.providersUpdated, oid, EventData.providers l⟩
        s).providers = buildProviderDict l
    ∧ (∀ k, (∀ x ∈ l, x.instance_id ≠ k) →
        lookupProv k (handle_event ⟨EventType.providersUpdated, oid,
            EventData.providers l⟩ s).providers = none) := by
  have hp : (handle_event ⟨EventType.providersUpdated, oid, EventData.providers l⟩
      s).providers = buildProviderDict l := by
    simp [handle_event, h, eventProviders]
  refine ⟨hp, fun k habs => ?_⟩
  rw [hp]
  exact lookupProv_build_absent k l habs

/-- Witness for C9: the event carrying only instance "a" leaves exactly the
dict built from that payload, and the previously cached "old1" is gone. -/
theorem C9_witness :
    (handle_event ⟨EventType.providersUpdated, none, EventData.providers [provA]⟩
        exProvState).providers = buildProviderDict [provA]
    ∧ lookupProv "old1" (handle_event ⟨EventType.providersUpdated, none,
          EventData.providers [provA]⟩ exProvState).providers = none :=
  ⟨(C9_providers_updated_wholesale exProvState rfl none [provA]).1,
    (C9_providers_updated_wholesale exProvState rfl none [provA]).2 "old1"
      (by decide)⟩

/-- Claim C10: `get_provider` first attempts an exact match by instance id
and returns it when available or `return_unavailable` is set; an
unavailable exact match that is not a streaming provider yields `None`
immediately, with no domain scan; otherwise it scans all instances, in
enumeration order, for a domain match meeting the availability condition
(the first such match, i.e. `List.find?` over the values), and yields
`None` when nothing matches. -/
theorem C10_get_provider_resolution (s : ClientState) (pid : String)
    (ru : Bool) :
    (∀ prov, lookupProv pid s.providers = some prov →
        (ru || prov.available) = true → get_provider pid ru s = some prov)
    ∧ (∀ prov, lookupProv pid s.providers = some prov →
        (ru || prov.available) = false → prov.is_streaming_provider = false →
        get_provider pid ru s = none)
    ∧ (∀ prov, lookupProv pid s.providers = some prov →
        (ru || prov.available) = false → prov.is_streaming_provider = true →
        get_provider pid ru s = find_domain prov.domain ru s.providers)
    ∧ (lookupProv pid s.providers = none →
        get_provider pid ru s = find_domain pid ru s.providers)
    ∧ (∀ d2, find_domain d2 ru s.providers
        = (s.providers.map Prod.snd).find?
            (fun p => (p.domain == d2) && (ru || p.available)))
    ∧ (∀ d2, (∀ p ∈ s.providers, ¬(p.2.domain = d2 ∧ (ru || p.2.available) = true)) →
        find_domain d2 ru s.providers = none) := by
  refine ⟨?_, ?_, ?_, ?_, ?_, ?_⟩
  · intro prov hl hc
    simp [get_provider, hl, hc]
  · intro prov hl hc hstream
    simp [get_provider, hl, hc, hstream]
  · intro prov hl hc hstream
    simp [get_provider, hl, hc, hstream]
  · intro hl
    simp [get_provider, hl]
  · intro d2
    exact find_domain_eq_find d2 ru s.providers
  · intro d2 hnone
    rw [find_domain_eq_find, List.find?_eq_none]
    intro p hp hc
    obtain ⟨q, hq, rfl⟩ := List.mem_map.mp hp
    exact hnone q hq (by simpa using hc)

/-- Witness for C10: the unavailable streaming instance "sp1" falls back to
the domain scan; the unavailable non-streaming instance "fs1" yields `None`
immediately. -/
theorem C10_witness :
    get_provider "sp1" false exProvTable
      = find_domain "spotify" false exProvTable.providers
    ∧ get_provider "fs1" false exProvTable = none :=
  ⟨(C10_get_provider_resolution exProvTable "sp1" false).2.2.1 provS1 rfl rfl rfl,
    (C10_get_provider_resolution exProvTable "fs1" false).2.1 provFS rfl rfl rfl⟩

end MAClient
